/-
Verification of the Task & Workflow Automation Agent (src/main.py).

The program is a Streamlit single-page app.  We embed it shallowly:

* `SessionState` mirrors `st.session_state` (the per-session store).
* The Gemini backend (`genai.configure`, model construction plus
  `generate_content`) is an oracle `Gemini`: a record of functions giving,
  for each model name and prompt, either the response text or the text of
  the exception raised.  A stored model handle is identified by the model
  name it was constructed from, since construction is deterministic given
  the name and the oracle carries its behaviour.
* Randomness (`random.randint`, `random.uniform`) is an oracle `RandGen`
  indexed by the position of the draw.
* Each button handler becomes a function from inputs and state to a
  `HOut`: the new state, the user-visible messages emitted
  (`st.error` / `st.warning` / `st.success` / `st.info`), and the list of
  outbound `generate_content` prompts issued through `get_ai_response`.
-/

import Mathlib

namespace TaskAgent

/-- A user-visible message emitted by the UI layer. -/
inductive Msg
| error (s : String)
| warning (s : String)
| success (s : String)
| info (s : String)
deriving DecidableEq

/-- An entry of `st.session_state.task_history`: `{"name": ..., "time": ...}`. -/
structure TaskEntry where
  name : String
  time : String
deriving DecidableEq

/-- An entry of `st.session_state.chat_history`:
`{"user": ..., "assistant": ..., "time": ...}`. -/
structure ChatEntry where
  user : String
  assistant : String
  time : String
deriving DecidableEq

/-- An entry of `st.session_state.workflows` appended by the Schedule Update
button: `{"name": ..., "schedule": ..., "source": ...}`. -/
structure ScheduledWorkflow where
  name : String
  schedule : String
  source : String
deriving DecidableEq

/-- A cell of the generated report table. -/
inductive Cell
| int (z : ℤ)
| rat (q : ℚ)
| str (s : String)
deriving DecidableEq

/-- A `pandas.DataFrame` as built by `generate_report_data`: an ordered list
of named columns. -/
def Report : Type := List (String × List Cell)

instance : DecidableEq Report := by
  unfold Report
  infer_instance

/-- `st.session_state` (lines 54-61 initialize the first four fields;
`model`, `model_name` and `current_report` are absent until first set,
modelled as `Option`). -/
structure SessionState where
  gemini_configured : Bool
  model : Option String
  model_name : Option String
  task_history : List TaskEntry
  workflows : List ScheduledWorkflow
  chat_history : List ChatEntry
  current_report : Option Report
deriving DecidableEq

/-- The session state after the initialization block (lines 54-61). -/
def initialState : SessionState :=
  { gemini_configured := false
    model := none
    model_name := none
    task_history := []
    workflows := []
    chat_history := []
    current_report := none }

/-- Oracle for the Gemini backend, fixed for a given API key.
`configure` is the outcome of `genai.configure(api_key=...)`;
`genContent m p` is the combined outcome of `genai.GenerativeModel(m)`
followed by `.generate_content(p)` — `.error e` means an exception with
text `e` was raised somewhere in that pair of calls. -/
structure Gemini where
  configure : Except String Unit
  genContent : String → String → Except String String

/-- The fixed probe order of `configure_gemini` (line 69). -/
def modelsToTry : List String :=
  ["gemini-2.5-flash", "gemini-2.0-flash", "gemini-1.5-flash-latest"]

/-- The test prompt sent to each candidate model (line 74). -/
def probePrompt : String := "Say 'connected' in one word"

/-- The inner `for model_name in models_to_try` loop of `configure_gemini`
(lines 71-80): on the first candidate whose construction and test prompt
both succeed, set the configured flag, store the handle and its name, and
return `True`; if the list is exhausted, emit the error of line 82 and
return `False`. -/
def tryModels (g : Gemini) (st : SessionState) :
    List String → Bool × SessionState × List Msg
  | [] =>
    (false, st,
      [Msg.error "No compatible Gemini model found. Please check your API key."])
  | m :: rest =>
    match g.genContent m probePrompt with
    | .ok _ =>
      (true,
        { st with gemini_configured := true, model := some m, model_name := some m },
        [])
    | .error _ => tryModels g st rest

/-- `configure_gemini(api_key)` (lines 64-86).  The outer `try` only guards
`genai.configure`; its `except` emits the line-85 error. -/
def configure_gemini (g : Gemini) (st : SessionState) :
    Bool × SessionState × List Msg :=
  match g.configure with
  | .error e => (false, st, [Msg.error ("Failed to configure Gemini: " ++ e)])
  | .ok _ => tryModels g st modelsToTry

/-- The f-string template of `get_ai_response` (lines 95-103), with the
source's literal indentation. -/
def fullPrompt (context prompt : String) : String :=
  "You are a Task & Workflow Automation Agent. \n        Your role is to help automate repetitive tasks across applications.\n        \n        Context: " ++
    context ++
    "\n        \n        User Request: " ++
    prompt ++
    "\n        \n        Provide a helpful, actionable response. If the user wants to automate a task,\n        break it down into clear steps. Format your response clearly."

/-- `get_ai_response(prompt, context="")` (lines 89-108).  Returns the text
shown to the user together with the list of outbound `generate_content`
prompts actually issued.  When the configured flag is set but no model
handle exists, the attribute access itself raises inside the `try`, which
the `except` turns into the same error-string shape without any outbound
call; `g.configure` is unused here, only the stored handle is. -/
def get_ai_response (g : Gemini) (st : SessionState)
    (prompt : String) (context : String := "") : String × List String :=
  if st.gemini_configured = false then
    ("Please configure your Gemini API key first.", [])
  else
    match st.model with
    | some m =>
      let fp := fullPrompt context prompt
      match g.genContent m fp with
      | .ok t => (t, [fp])
      | .error e => ("Error getting AI response: " ++ e, [fp])
    | none =>
      ("Error getting AI response: st.session_state has no attribute \"model\"", [])

/-- A session state just after a successful configuration that stored the
model handle named `m` (used to instantiate theorems at concrete states). -/
def configuredState (m : String) : SessionState :=
  { initialState with
      gemini_configured := true, model := some m, model_name := some m }

/-- `execute_workflow(workflow_name, params)` (lines 159-196): a fixed table
of (step description, status) pairs keyed by exact name; `params` is never
read; unmatched names return the initial empty list. -/
def execute_workflow (workflow_name : String) (_params : List (String × String)) :
    List (String × String) :=
  if workflow_name = "Employee Onboarding" then
    [("Create employee record", "success"),
     ("Generate credentials", "success"),
     ("Assign to department", "success"),
     ("Send welcome email", "success"),
     ("Schedule orientation", "success")]
  else if workflow_name = "Sales Pipeline Update" then
    [("Fetch CRM data", "success"),
     ("Update deal stages", "success"),
     ("Calculate forecasts", "success"),
     ("Generate pipeline report", "success"),
     ("Notify sales managers", "success")]
  else if workflow_name = "Invoice Processing" then
    [("Extract invoice data", "success"),
     ("Validate amounts", "success"),
     ("Match with PO", "success"),
     ("Route for approval", "success"),
     ("Update accounting system", "success")]
  else if workflow_name = "Monthly Close" then
    [("Reconcile accounts", "success"),
     ("Post adjusting entries", "success"),
     ("Generate trial balance", "success"),
     ("Create financial statements", "success"),
     ("Archive documents", "success")]
  else []

/-- Oracle for the `random` module: `randint lo hi k` is the value of the
`k`-th call `random.randint(lo, hi)` made while building one column group,
and `uniform lo hi k` likewise for `random.uniform(lo, hi)`.  Successive
draws of one report get distinct indices. -/
structure RandGen where
  randint : ℤ → ℤ → Nat → ℤ
  uniform : ℚ → ℚ → Nat → ℚ

/-- The contract of Python's `random.randint` (inclusive bounds) and
`random.uniform`. -/
def RandOk (rng : RandGen) : Prop :=
  (∀ lo hi k, lo ≤ hi → lo ≤ rng.randint lo hi k ∧ rng.randint lo hi k ≤ hi) ∧
  (∀ lo hi k, lo ≤ hi → lo ≤ rng.uniform lo hi k ∧ rng.uniform lo hi k ≤ hi)

/-- Python's `round(x, 2)`: round to the nearest multiple of 1/100. -/
def round2 (q : ℚ) : ℚ := (round (q * 100) : ℤ) / 100

/-- `generate_report_data(report_type)` (lines 111-138): a fixed schema per
known category filled with fresh random draws, and a fixed placeholder for
anything else. -/
def generate_report_data (rng : RandGen) (report_type : String) : Report :=
  if report_type = "Sales Report" then
    [("Month", [.str "Jan", .str "Feb", .str "Mar", .str "Apr", .str "May", .str "Jun"]),
     ("Revenue", (List.range 6).map fun k => .int (rng.randint 50000 150000 k)),
     ("Units Sold", (List.range 6).map fun k => .int (rng.randint 100 500 (6 + k))),
     ("Growth %", (List.range 6).map fun k => .rat (round2 (rng.uniform (-5) 15 k)))]
  else if report_type = "HR Report" then
    [("Department",
      [.str "Engineering", .str "Sales", .str "Marketing", .str "HR", .str "Finance"]),
     ("Headcount", (List.range 5).map fun k => .int (rng.randint 20 100 k)),
     ("Open Positions", (List.range 5).map fun k => .int (rng.randint 0 10 (5 + k))),
     ("Attrition %", (List.range 5).map fun k => .rat (round2 (rng.uniform 2 15 k)))]
  else if report_type = "Finance Report" then
    [("Category",
      [.str "Revenue", .str "COGS", .str "Gross Profit", .str "OpEx", .str "Net Income"]),
     ("Q1", (List.range 5).map fun k => .int (rng.randint 100000 500000 k)),
     ("Q2", (List.range 5).map fun k => .int (rng.randint 100000 500000 (5 + k))),
     ("Q3", (List.range 5).map fun k => .int (rng.randint 100000 500000 (10 + k))),
     ("Q4", (List.range 5).map fun k => .int (rng.randint 100000 500000 (15 + k)))]
  else
    [("Column1", [.int 1, .int 2, .int 3]),
     ("Column2", [.str "A", .str "B", .str "C"])]

/-- The ordered column names of a report table. -/
def colNames (df : Report) : List String := df.map (·.1)

/-- The per-column row counts of a report table. -/
def rowCounts (df : Report) : List Nat := df.map (·.2.length)

/-- The cells of the column named `name` (empty if absent). -/
def colCells (df : Report) (name : String) : List Cell :=
  (List.lookup name df).getD []

/-- Every cell is an integer within `[lo, hi]`. -/
def IntsIn (lo hi : ℤ) (cs : List Cell) : Prop :=
  ∀ c ∈ cs, ∃ z, c = Cell.int z ∧ lo ≤ z ∧ z ≤ hi

/-- Every cell is a rational within `[lo, hi]`. -/
def RatsIn (lo hi : ℚ) (cs : List Cell) : Prop :=
  ∀ c ∈ cs, ∃ q, c = Cell.rat q ∧ lo ≤ q ∧ q ≤ hi

/-- A degenerate random oracle that always answers the lower bound. -/
def constRand : RandGen := ⟨fun lo _ _ => lo, fun lo _ _ => lo⟩

/-- The outcome of one button press: the session state afterwards, the
user-visible messages emitted, and the outbound `generate_content` prompts
issued through `get_ai_response` (probe traffic of `configure_gemini`
lives inside its oracle and is not listed here). -/
structure HOut where
  state : SessionState
  msgs : List Msg
  calls : List String
deriving DecidableEq

/-- The Configure API button handler (lines 210-215): a non-empty key is
passed to `configure_gemini` (line 213 adds the success banner when it
returns `True`); an empty key only warns. -/
def configureHandler (g : Gemini) (st : SessionState) (api_key : String) : HOut :=
  if api_key ≠ "" then
    let r := configure_gemini g st
    ⟨r.2.1, r.2.2 ++ (if r.1 then [Msg.success "✅ Gemini API configured!"] else []), []⟩
  else ⟨st, [Msg.warning "Please enter your API key"], []⟩

/-- The tab-1 Get Help button handler (lines 253-261): a non-empty prompt is
sent to `get_ai_response` and the exchange is appended to `chat_history`;
an empty prompt takes no action at all — the source has no `else` branch
here, so nothing is emitted. -/
def getHelpHandler (g : Gemini) (st : SessionState) (user_input now : String) : HOut :=
  if user_input ≠ "" then
    let r := get_ai_response g st user_input ""
    ⟨{ st with chat_history := st.chat_history ++ [⟨user_input, r.1, now⟩] }, [], r.2⟩
  else ⟨st, [], []⟩

/-- The tab-2 Generate Report button handler (lines 285-293): builds the
table, stores it as the current report, appends to `task_history` and
reports success. -/
def generateReportHandler (rng : RandGen) (st : SessionState)
    (report_type now : String) : HOut :=
  ⟨{ st with
      current_report := some (generate_report_data rng report_type),
      task_history := st.task_history ++ [⟨"Generated " ++ report_type, now⟩] },
   [Msg.success ("✅ " ++ report_type ++ " generated successfully!")], []⟩

/-- The f-string of `create_presentation_outline` (lines 143-153). -/
def presentationPrompt (topic : String) : String :=
  "Create a professional presentation outline for: " ++ topic ++
    "\n    \n    Format the response as JSON with this structure:\n    \x7b\n        \"title\": \"Presentation Title\",\n        \"slides\": [\n            \x7b\"slide_number\": 1, \"title\": \"Slide Title\", \"bullet_points\": [\"point1\", \"point2\", \"point3\"]\x7d\n        ]\n    \x7d\n    \n    Include 5-7 slides with relevant content."

/-- `create_presentation_outline(topic)` (lines 141-156): one
`get_ai_response` call with the JSON-outline prompt and default context. -/
def create_presentation_outline (g : Gemini) (st : SessionState)
    (topic : String) : String × List String :=
  get_ai_response g st (presentationPrompt topic) ""

/-- The tab-3 Create Presentation button handler (lines 325-340): a
non-empty topic is expanded with style and slide count, the outline is
requested, and `task_history` records the action; an empty topic warns. -/
def createPresentationHandler (g : Gemini) (st : SessionState)
    (pres_topic style : String) (num_slides : Nat) (now : String) : HOut :=
  if pres_topic ≠ "" then
    let r := create_presentation_outline g st
      (pres_topic ++ " in " ++ style ++ " style with " ++
        toString num_slides ++ " slides")
    ⟨{ st with
        task_history :=
          st.task_history ++ [⟨"Created presentation: " ++ pres_topic, now⟩] },
     [Msg.success "✅ Presentation outline created!"], r.2⟩
  else ⟨st, [Msg.warning "Please enter a topic for your presentation"], []⟩

/-- The tab-4 Run Workflow button handler (lines 386-418): plays back the
steps of `execute_workflow` (a purely visual loop, `params` is `{}`),
appends to `task_history`, reports success and requests an AI summary. -/
def runWorkflowHandler (g : Gemini) (st : SessionState)
    (workflow_name now : String) : HOut :=
  let _steps := execute_workflow workflow_name []
  let st' :=
    { st with
        task_history := st.task_history ++ [⟨"Ran workflow: " ++ workflow_name, now⟩] }
  let r := get_ai_response g st'
    ("Provide a brief summary of a completed " ++ workflow_name ++
      " workflow execution with all steps successful.") ""
  ⟨st',
   [Msg.success ("✅ Workflow '" ++ workflow_name ++ "' completed successfully!"),
    Msg.info ("**AI Summary:** " ++ r.1)], r.2⟩

/-- The tab-5 Execute Update button handler (lines 471-482): sleeps, appends
to `task_history` and reports success. -/
def executeUpdateHandler (st : SessionState) (update_type now : String) : HOut :=
  ⟨{ st with
      task_history := st.task_history ++ [⟨"Sheet update: " ++ update_type, now⟩] },
   [Msg.success "✅ Sheet updated successfully!"], []⟩

/-- The tab-5 Schedule Update button handler (lines 485-491): appends to
`workflows` (never to `task_history`) and reports success. -/
def scheduleUpdateHandler (st : SessionState)
    (update_type schedule source : String) : HOut :=
  ⟨{ st with
      workflows := st.workflows ++ [⟨"Scheduled: " ++ update_type, schedule, source⟩] },
   [Msg.success ("✅ Update scheduled: " ++ schedule)], []⟩

/-- Python's `l[-n:]`: the last `n` elements (the whole list when shorter). -/
def pyLastN {α : Type} (n : Nat) (l : List α) : List α := l.drop (l.length - n)

/-- The sidebar Recent Activity display (lines 228-230):
`st.session_state.task_history[-5:]`. -/
def recentActivity (st : SessionState) : List TaskEntry :=
  pyLastN 5 st.task_history

/-- One press of a button that (normally) appends to `task_history`, with
the widget inputs it reads. -/
inductive Action
| genReport (report_type now : String)
| createPres (topic style : String) (slides : Nat) (now : String)
| runWf (name now : String)
| sheetUpdate (update_type now : String)
deriving DecidableEq

/-- Whether the press actually appends: only an empty presentation topic
falls into the warning branch. -/
def appendsB : Action → Bool
  | .createPres topic _ _ _ => topic != ""
  | _ => true

/-- The `task_history` entry each appending press records. -/
def entryOf : Action → TaskEntry
  | .genReport rt now => ⟨"Generated " ++ rt, now⟩
  | .createPres topic _ _ now => ⟨"Created presentation: " ++ topic, now⟩
  | .runWf name now => ⟨"Ran workflow: " ++ name, now⟩
  | .sheetUpdate ut now => ⟨"Sheet update: " ++ ut, now⟩

/-- The state after one press (handlers run to completion one at a time). -/
def applyAction (g : Gemini) (rng : RandGen) (st : SessionState) :
    Action → SessionState
  | .genReport rt now => (generateReportHandler rng st rt now).state
  | .createPres topic style n now =>
    (createPresentationHandler g st topic style n now).state
  | .runWf name now => (runWorkflowHandler g st name now).state
  | .sheetUpdate ut now => (executeUpdateHandler st ut now).state

/-- The state after a sequence of presses, oldest first. -/
def runActions (g : Gemini) (rng : RandGen) :
    SessionState → List Action → SessionState
  | st, [] => st
  | st, a :: rest => runActions g rng (applyAction g rng st a) rest

/-- One entry of the `workflows` literal of tab 4 (lines 351-356). -/
structure WorkflowInfo where
  name : String
  icon : String
  dept : String
deriving DecidableEq

/-- The `workflows` list of tab 4 (lines 351-356). -/
def workflowsTable : List WorkflowInfo :=
  [⟨"Employee Onboarding", "👤", "HR"⟩,
   ⟨"Sales Pipeline Update", "💰", "Sales"⟩,
   ⟨"Invoice Processing", "📄", "Finance"⟩,
   ⟨"Monthly Close", "📅", "Finance"⟩]

/-- The radio label `f"{w['icon']} {w['name']} ({w['dept']})"` (line 360). -/
def radioLabel (w : WorkflowInfo) : String :=
  w.icon ++ " " ++ w.name ++ " (" ++ w.dept ++ ")"

/-- Index of the first occurrence of `sep` as a sublist. -/
def findSubIdx (sep : List Char) : List Char → Option Nat
  | [] => if List.isPrefixOf sep [] then some 0 else none
  | c :: rest =>
    if List.isPrefixOf sep (c :: rest) then some 0
    else (findSubIdx sep rest).map (· + 1)

/-- Index of the last occurrence of `sep` as a sublist. -/
def findSubIdxLast (sep : List Char) : List Char → Option Nat
  | [] => if List.isPrefixOf sep [] then some 0 else none
  | c :: rest =>
    match findSubIdxLast sep rest with
    | some i => some (i + 1)
    | none => if List.isPrefixOf sep (c :: rest) then some 0 else none

/-- Python's `s.split(sep, 1)` for non-empty `sep`: at most one split, at
the first occurrence. -/
def pySplit1 (sep s : String) : List String :=
  match findSubIdx sep.toList s.toList with
  | some i =>
    [String.mk (s.toList.take i), String.mk (s.toList.drop (i + sep.toList.length))]
  | none => [s]

/-- Python's `s.rsplit(sep, 1)` for non-empty `sep`: at most one split, at
the last occurrence. -/
def pyRsplit1 (sep s : String) : List String :=
  match findSubIdxLast sep.toList s.toList with
  | some i =>
    [String.mk (s.toList.take i), String.mk (s.toList.drop (i + sep.toList.length))]
  | none => [s]

/-- Line 363: `selected_workflow.split(" ", 1)[1].rsplit(" (", 1)[0]`
(the indexings are written total here; on every radio label both lists are
long enough). -/
def parseWorkflowName (s : String) : String :=
  (pyRsplit1 " (" ((pySplit1 " " s).getD 1 "")).getD 0 ""

end TaskAgent

namespace TaskAgent

/-- C1: with the configured flag false, `get_ai_response` returns the fixed
instructional string and issues no outbound `generate_content` call, for
every backend, prompt and context. -/
theorem c1_unconfigured_fixed_reply (g : Gemini) (st : SessionState)
    (prompt context : String) (h : st.gemini_configured = false) :
    get_ai_response g st prompt context =
      ("Please configure your Gemini API key first.", []) := by
  simp [get_ai_response, h]

/-- Witness for C1 at a concrete unconfigured state. -/
theorem c1_unconfigured_fixed_reply_witness :
    initialState.gemini_configured = false ∧
    get_ai_response ⟨.ok (), fun _ _ => .ok "hi"⟩ initialState "p" "c" =
      ("Please configure your Gemini API key first.", []) :=
  ⟨rfl, c1_unconfigured_fixed_reply ⟨.ok (), fun _ _ => .ok "hi"⟩ initialState
    "p" "c" rfl⟩

/-- If every candidate model's probe fails, the probe loop returns `False`,
emits the fixed error, and hands back the state untouched. -/
theorem tryModels_all_fail (g : Gemini) (st : SessionState) (ms : List String)
    (hf : ∀ m ∈ ms, ∃ e, g.genContent m probePrompt = .error e) :
    tryModels g st ms =
      (false, st,
        [Msg.error "No compatible Gemini model found. Please check your API key."]) := by
  induction ms with
  | nil => rfl
  | cons m rest ih =>
    obtain ⟨e, he⟩ := hf m (List.mem_cons_self m rest)
    simp only [tryModels, he]
    exact ih fun m' hm' => hf m' (List.mem_cons_of_mem m hm')

/-- C2: from an unconfigured session, an API key on which every candidate
model fails makes `configure_gemini` return `False`, surface exactly one
user-visible error message, and leave the configured flag false. -/
theorem c2_all_models_fail (g : Gemini) (st : SessionState)
    (hst : st.gemini_configured = false)
    (hf : ∀ m ∈ modelsToTry, ∃ e, g.genContent m probePrompt = .error e) :
    (configure_gemini g st).1 = false ∧
    (∃ s, (configure_gemini g st).2.2 = [Msg.error s]) ∧
    (configure_gemini g st).2.1.gemini_configured = false := by
  unfold configure_gemini
  match hcfg : g.configure with
  | .error e => exact ⟨rfl, ⟨"Failed to configure Gemini: " ++ e, rfl⟩, hst⟩
  | .ok _ =>
    rw [tryModels_all_fail g st modelsToTry hf]
    exact ⟨rfl,
      ⟨"No compatible Gemini model found. Please check your API key.", rfl⟩, hst⟩

/-- Witness for C2: a backend whose every `generate_content` raises. -/
theorem c2_all_models_fail_witness :
    initialState.gemini_configured = false ∧
    ((configure_gemini ⟨.ok (), fun _ _ => .error "bad key"⟩ initialState).1 = false ∧
     (∃ s, (configure_gemini ⟨.ok (), fun _ _ => .error "bad key"⟩ initialState).2.2 =
        [Msg.error s]) ∧
     (configure_gemini ⟨.ok (), fun _ _ =>
        .error "bad key"⟩ initialState).2.1.gemini_configured = false) :=
  ⟨rfl, c2_all_models_fail ⟨.ok (), fun _ _ => .error "bad key"⟩ initialState rfl
    (fun _ _ => ⟨"bad key", rfl⟩)⟩

/-- C3: the probe list is exactly
`['gemini-2.5-flash', 'gemini-2.0-flash', 'gemini-1.5-flash-latest']`, and
when the first candidate raises on the test prompt while the second
answers it, `configure_gemini` returns `True` with the configured flag set
and the second candidate's handle and identifier stored; the third
candidate is never consulted (the result does not depend on it). -/
theorem c3_second_model_wins (g : Gemini) (st : SessionState) (e1 r2 : String)
    (hcfg : g.configure = .ok ())
    (h1 : g.genContent "gemini-2.5-flash" probePrompt = .error e1)
    (h2 : g.genContent "gemini-2.0-flash" probePrompt = .ok r2) :
    modelsToTry = ["gemini-2.5-flash", "gemini-2.0-flash", "gemini-1.5-flash-latest"] ∧
    configure_gemini g st =
      (true,
        { st with gemini_configured := true,
                  model := some "gemini-2.0-flash",
                  model_name := some "gemini-2.0-flash" },
        []) := by
  refine ⟨rfl, ?_⟩
  unfold configure_gemini
  rw [hcfg]
  show tryModels g st
    ("gemini-2.5-flash" :: "gemini-2.0-flash" :: ["gemini-1.5-flash-latest"]) = _
  simp only [tryModels, h1, h2]

/-- Witness for C3: first candidate rejected, second accepted. -/
theorem c3_second_model_wins_witness :
    configure_gemini
        ⟨.ok (), fun m _ => if m = "gemini-2.0-flash" then .ok "connected"
          else .error "404"⟩ initialState =
      (true,
        { initialState with gemini_configured := true,
                            model := some "gemini-2.0-flash",
                            model_name := some "gemini-2.0-flash" },
        []) :=
  (c3_second_model_wins
    ⟨.ok (), fun m _ => if m = "gemini-2.0-flash" then .ok "connected"
      else .error "404"⟩
    initialState "404" "connected" rfl rfl rfl).2

/-- C9: `configure_gemini` never clears a previously set configuration:
if the session is configured and every candidate model fails (or the key
setup itself raises), the call returns `False` yet leaves the whole
session state — in particular the configured flag, stored handle and model
identifier — unchanged; and in full generality the configured flag after
any call is the old flag or `true`. -/
theorem c9_failure_preserves_configuration (g : Gemini) (st : SessionState)
    (hst : st.gemini_configured = true)
    (hf : ∀ m ∈ modelsToTry, ∃ e, g.genContent m probePrompt = .error e) :
    (configure_gemini g st).1 = false ∧
    (configure_gemini g st).2.1 = st ∧
    (configure_gemini g st).2.1.gemini_configured = true ∧
    (∀ (g' : Gemini) (st' : SessionState),
      (configure_gemini g' st').2.1.gemini_configured = st'.gemini_configured ∨
      (configure_gemini g' st').2.1.gemini_configured = true) := by
  have hgen : ∀ (g' : Gemini) (st' : SessionState),
      (configure_gemini g' st').2.1.gemini_configured = st'.gemini_configured ∨
      (configure_gemini g' st').2.1.gemini_configured = true := by
    intro g' st'
    unfold configure_gemini
    match g'.configure with
    | .error _ => exact Or.inl rfl
    | .ok _ =>
      induction modelsToTry with
      | nil => exact Or.inl rfl
      | cons m rest ih =>
        simp only [tryModels]
        match g'.genContent m probePrompt with
        | .ok _ => exact Or.inr rfl
        | .error _ => exact ih
  refine ?_
  unfold configure_gemini
  match g.configure with
  | .error e => exact ⟨rfl, rfl, hst, hgen⟩
  | .ok _ =>
    rw [tryModels_all_fail g st modelsToTry hf]
    exact ⟨rfl, rfl, hst, hgen⟩

/-- Witness for C9: a configured session, all candidates now failing. -/
theorem c9_failure_preserves_configuration_witness :
    (configuredState "gemini-2.5-flash").gemini_configured = true ∧
    (configure_gemini ⟨.ok (), fun _ _ => .error "expired"⟩
        (configuredState "gemini-2.5-flash")).2.1 =
      configuredState "gemini-2.5-flash" :=
  ⟨rfl,
    (c9_failure_preserves_configuration ⟨.ok (), fun _ _ => .error "expired"⟩
      (configuredState "gemini-2.5-flash")
      rfl (fun _ _ => ⟨"expired", rfl⟩)).2.1⟩

/-- C6: with the session configured and a stored handle whose completion
call raises with text `e`, `get_ai_response` returns the string
`"Error getting AI response: " ++ e` (and still counts one outbound
attempt); being a total function of the oracle and state, it can never
propagate an exception. -/
theorem c6_ai_error_string (g : Gemini) (st : SessionState)
    (prompt context m e : String)
    (hc : st.gemini_configured = true)
    (hm : st.model = some m)
    (he : g.genContent m (fullPrompt context prompt) = .error e) :
    get_ai_response g st prompt context =
      ("Error getting AI response: " ++ e, [fullPrompt context prompt]) := by
  simp only [get_ai_response, hc, hm, he]
  rfl

/-- Witness for C6: a configured session whose model raises "quota". -/
theorem c6_ai_error_string_witness :
    get_ai_response ⟨.ok (), fun _ _ => .error "quota"⟩
        (configuredState "gemini-2.5-flash") "p" "c" =
      ("Error getting AI response: quota", [fullPrompt "c" "p"]) :=
  c6_ai_error_string ⟨.ok (), fun _ _ => .error "quota"⟩
    (configuredState "gemini-2.5-flash") "p" "c" "gemini-2.5-flash"
    "quota" rfl rfl rfl

/-- A column of bounded integer draws satisfies `IntsIn`. -/
theorem intsIn_map (lo hi : ℤ) (n : Nat) (f : Nat → ℤ)
    (h : ∀ k, lo ≤ f k ∧ f k ≤ hi) :
    IntsIn lo hi ((List.range n).map fun k => Cell.int (f k)) := by
  intro c hc
  rw [List.mem_map] at hc
  obtain ⟨k, _, rfl⟩ := hc
  exact ⟨f k, rfl, (h k).1, (h k).2⟩

/-- Rounding to hundredths keeps a value inside integer bounds. -/
theorem round2_mem (lo hi : ℤ) (q : ℚ) (h1 : (lo : ℚ) ≤ q) (h2 : q ≤ (hi : ℚ)) :
    (lo : ℚ) ≤ round2 q ∧ round2 q ≤ (hi : ℚ) := by
  have hlow : (lo * 100 : ℤ) ≤ round (q * 100) := by
    rw [round_eq, Int.le_floor]
    push_cast
    linarith
  have hhigh : round (q * 100) ≤ (hi * 100 : ℤ) := by
    rw [round_eq]
    have hlt : ⌊q * 100 + 1 / 2⌋ < hi * 100 + 1 := by
      rw [Int.floor_lt]
      push_cast
      linarith
    omega
  unfold round2
  constructor
  · rw [le_div_iff₀ (by norm_num : (0 : ℚ) < 100)]
    exact_mod_cast hlow
  · rw [div_le_iff₀ (by norm_num : (0 : ℚ) < 100)]
    exact_mod_cast hhigh

/-- A column of rounded bounded uniform draws satisfies `RatsIn`. -/
theorem ratsIn_map_round2 (lo hi : ℤ) (n : Nat) (u : Nat → ℚ)
    (h : ∀ k, (lo : ℚ) ≤ u k ∧ u k ≤ (hi : ℚ)) :
    RatsIn (lo : ℚ) (hi : ℚ)
      ((List.range n).map fun k => Cell.rat (round2 (u k))) := by
  intro c hc
  rw [List.mem_map] at hc
  obtain ⟨k, _, rfl⟩ := hc
  obtain ⟨hl, hr⟩ := round2_mem lo hi (u k) (h k).1 (h k).2
  exact ⟨round2 (u k), rfl, hl, hr⟩

/-- C4: for each known report category `generate_report_data` produces the
category's fixed column names and row count with all numeric cells inside
the documented inclusive ranges, and any other category name yields the
fixed 3-row placeholder table. -/
theorem c4_report_schemas (rng : RandGen) (h : RandOk rng) :
    (colNames (generate_report_data rng "Sales Report") =
        ["Month", "Revenue", "Units Sold", "Growth %"] ∧
      rowCounts (generate_report_data rng "Sales Report") = [6, 6, 6, 6] ∧
      IntsIn 50000 150000 (colCells (generate_report_data rng "Sales Report") "Revenue") ∧
      IntsIn 100 500 (colCells (generate_report_data rng "Sales Report") "Units Sold") ∧
      RatsIn (-5) 15 (colCells (generate_report_data rng "Sales Report") "Growth %")) ∧
    (colNames (generate_report_data rng "HR Report") =
        ["Department", "Headcount", "Open Positions", "Attrition %"] ∧
      rowCounts (generate_report_data rng "HR Report") = [5, 5, 5, 5] ∧
      IntsIn 20 100 (colCells (generate_report_data rng "HR Report") "Headcount") ∧
      IntsIn 0 10 (colCells (generate_report_data rng "HR Report") "Open Positions") ∧
      RatsIn 2 15 (colCells (generate_report_data rng "HR Report") "Attrition %")) ∧
    (colNames (generate_report_data rng "Finance Report") =
        ["Category", "Q1", "Q2", "Q3", "Q4"] ∧
      rowCounts (generate_report_data rng "Finance Report") = [5, 5, 5, 5, 5] ∧
      IntsIn 100000 500000 (colCells (generate_report_data rng "Finance Report") "Q1") ∧
      IntsIn 100000 500000 (colCells (generate_report_data rng "Finance Report") "Q2") ∧
      IntsIn 100000 500000 (colCells (generate_report_data rng "Finance Report") "Q3") ∧
      IntsIn 100000 500000 (colCells (generate_report_data rng "Finance Report") "Q4")) ∧
    (∀ rt, rt ∉ (["Sales Report", "HR Report", "Finance Report"] : List String) →
      generate_report_data rng rt =
        [("Column1", [.int 1, .int 2, .int 3]),
         ("Column2", [.str "A", .str "B", .str "C"])]) := by
  obtain ⟨hri, hru⟩ := h
  refine ⟨⟨rfl, rfl, ?_, ?_, ?_⟩, ⟨rfl, rfl, ?_, ?_, ?_⟩,
    ⟨rfl, rfl, ?_, ?_, ?_, ?_⟩, ?_⟩
  · exact intsIn_map 50000 150000 6 _ fun k => hri 50000 150000 k (by norm_num)
  · exact intsIn_map 100 500 6 _ fun k => hri 100 500 (6 + k) (by norm_num)
  · have hg := ratsIn_map_round2 (-5) 15 6 (fun k => rng.uniform (-5) 15 k)
      (fun k => by
        have := hru (-5) 15 k (by norm_num)
        constructor <;> [exact_mod_cast this.1; exact_mod_cast this.2])
    rw [show ((-5 : ℤ) : ℚ) = (-5 : ℚ) by norm_num,
      show ((15 : ℤ) : ℚ) = (15 : ℚ) by norm_num] at hg
    exact hg
  · exact intsIn_map 20 100 5 _ fun k => hri 20 100 k (by norm_num)
  · exact intsIn_map 0 10 5 _ fun k => hri 0 10 (5 + k) (by norm_num)
  · have hg := ratsIn_map_round2 2 15 5 (fun k => rng.uniform 2 15 k)
      (fun k => by
        have := hru 2 15 k (by norm_num)
        constructor <;> [exact_mod_cast this.1; exact_mod_cast this.2])
    rw [show ((2 : ℤ) : ℚ) = (2 : ℚ) by norm_num,
      show ((15 : ℤ) : ℚ) = (15 : ℚ) by norm_num] at hg
    exact hg
  · exact intsIn_map 100000 500000 5 _ fun k => hri 100000 500000 k (by norm_num)
  · exact intsIn_map 100000 500000 5 _ fun k => hri 100000 500000 (5 + k) (by norm_num)
  · exact intsIn_map 100000 500000 5 _ fun k => hri 100000 500000 (10 + k) (by norm_num)
  · exact intsIn_map 100000 500000 5 _ fun k => hri 100000 500000 (15 + k) (by norm_num)
  · intro rt hrt
    simp only [List.mem_cons, List.not_mem_nil, or_false, not_or] at hrt
    obtain ⟨h1, h2, h3⟩ := hrt
    simp [generate_report_data, h1, h2, h3]

/-- Witness for C4 at the lower-bound random oracle. -/
theorem c4_report_schemas_witness :
    RandOk constRand ∧
    colNames (generate_report_data constRand "Sales Report") =
      ["Month", "Revenue", "Units Sold", "Growth %"] := by
  have hok : RandOk constRand :=
    ⟨fun lo _ _ hlh => ⟨le_refl lo, hlh⟩, fun lo _ _ hlh => ⟨le_refl lo, hlh⟩⟩
  exact ⟨hok, (c4_report_schemas constRand hok).1.1⟩

/-- C5: each of the four named workflows maps to its exact fixed ordered
five-step list, every status in any returned list is the literal
`"success"`, and every other name yields the empty list; `params` never
affects the result. -/
theorem c5_workflow_steps (params : List (String × String)) :
    execute_workflow "Employee Onboarding" params =
      [("Create employee record", "success"), ("Generate credentials", "success"),
       ("Assign to department", "success"), ("Send welcome email", "success"),
       ("Schedule orientation", "success")] ∧
    execute_workflow "Sales Pipeline Update" params =
      [("Fetch CRM data", "success"), ("Update deal stages", "success"),
       ("Calculate forecasts", "success"), ("Generate pipeline report", "success"),
       ("Notify sales managers", "success")] ∧
    execute_workflow "Invoice Processing" params =
      [("Extract invoice data", "success"), ("Validate amounts", "success"),
       ("Match with PO", "success"), ("Route for approval", "success"),
       ("Update accounting system", "success")] ∧
    execute_workflow "Monthly Close" params =
      [("Reconcile accounts", "success"), ("Post adjusting entries", "success"),
       ("Generate trial balance", "success"), ("Create financial statements", "success"),
       ("Archive documents", "success")] ∧
    (∀ name, name ∉ (["Employee Onboarding", "Sales Pipeline Update",
        "Invoice Processing", "Monthly Close"] : List String) →
      execute_workflow name params = []) ∧
    (∀ name s, s ∈ execute_workflow name params → s.2 = "success") := by
  refine ⟨rfl, rfl, rfl, rfl, ?_, ?_⟩
  · intro name hn
    simp only [List.mem_cons, List.not_mem_nil, or_false, not_or] at hn
    obtain ⟨h1, h2, h3, h4⟩ := hn
    simp [execute_workflow, h1, h2, h3, h4]
  · intro name s hs
    unfold execute_workflow at hs
    split_ifs at hs <;>
      simp only [List.mem_cons, List.not_mem_nil, or_false] at hs <;>
      rcases hs with rfl | rfl | rfl | rfl | rfl <;> rfl

/-- Witness for C5: a name outside the table yields no steps. -/
theorem c5_workflow_steps_witness :
    "Quarterly Audit" ∉ (["Employee Onboarding", "Sales Pipeline Update",
        "Invoice Processing", "Monthly Close"] : List String) ∧
    execute_workflow "Quarterly Audit" [] = [] :=
  ⟨by decide, (c5_workflow_steps []).2.2.2.2.1 "Quarterly Audit" (by decide)⟩

/-- C7 counterexample: pressing Get Help with an empty prompt emits no
warning at all — the tab-1 handler has no `else` branch, so the claim that
every empty required input surfaces a warning is false at this input. -/
theorem c7_counterexample :
    ¬ ∃ s, Msg.warning s ∈
      (getHelpHandler ⟨.ok (), fun _ _ => .ok "x"⟩ initialState "" "12:00").msgs := by
  simp [getHelpHandler]

/-- C7 (amended): with an empty API key or an empty presentation topic the
handler surfaces a warning and takes no action (state unchanged, no AI
call, for every backend); with an empty AI-assistant prompt the handler
takes no action either, but silently — it emits no message. -/
theorem c7_empty_input_no_action (g : Gemini) (st : SessionState)
    (style now : String) (n : Nat) :
    configureHandler g st "" = ⟨st, [Msg.warning "Please enter your API key"], []⟩ ∧
    createPresentationHandler g st "" style n now =
      ⟨st, [Msg.warning "Please enter a topic for your presentation"], []⟩ ∧
    getHelpHandler g st "" now = ⟨st, [], []⟩ :=
  ⟨rfl, rfl, rfl⟩

/-- `tryModels` only touches the three configuration fields. -/
theorem tryModels_preserves_history (g : Gemini) (st : SessionState)
    (ms : List String) :
    (tryModels g st ms).2.1.task_history = st.task_history := by
  induction ms with
  | nil => rfl
  | cons m rest ih =>
    cases hm : g.genContent m probePrompt with
    | ok t => simp [tryModels, hm]
    | error e => simp [tryModels, hm, ih]

/-- `configure_gemini` never changes `task_history`. -/
theorem configure_gemini_preserves_history (g : Gemini) (st : SessionState) :
    (configure_gemini g st).2.1.task_history = st.task_history := by
  unfold configure_gemini
  cases g.configure with
  | error e => rfl
  | ok u => exact tryModels_preserves_history g st modelsToTry

/-- An appending press adds exactly its entry at the tail. -/
theorem applyAction_task_history (g : Gemini) (rng : RandGen)
    (st : SessionState) (a : Action) (ha : appendsB a = true) :
    (applyAction g rng st a).task_history = st.task_history ++ [entryOf a] := by
  cases a with
  | genReport rt now => rfl
  | createPres topic style n now =>
    have ht : topic ≠ "" := by simpa [appendsB] using ha
    simp [applyAction, createPresentationHandler, ht, entryOf]
  | runWf name now => rfl
  | sheetUpdate ut now => rfl

/-- Folding appending presses appends their entries in order. -/
theorem runActions_task_history (g : Gemini) (rng : RandGen)
    (acts : List Action) (st : SessionState)
    (hall : ∀ a ∈ acts, appendsB a = true) :
    (runActions g rng st acts).task_history =
      st.task_history ++ acts.map entryOf := by
  induction acts generalizing st with
  | nil => simp [runActions]
  | cons a rest ih =>
    have ha := hall a (List.mem_cons_self a rest)
    have hrest : ∀ a' ∈ rest, appendsB a' = true :=
      fun a' ha' => hall a' (List.mem_cons_of_mem a ha')
    simp only [runActions, List.map_cons]
    rw [ih (applyAction g rng st a) hrest, applyAction_task_history g rng st a ha,
      List.append_assoc]
    rfl

/-- C8: starting from an empty task history, N appending presses leave
exactly their N entries in press order; the sidebar surfaces the last 5
(all of them when fewer) while the full list stays in state; and no
handler ever removes an entry — every handler either appends to
`task_history` or leaves it untouched. -/
theorem c8_history_append_only (g : Gemini) (rng : RandGen)
    (acts : List Action) (st0 : SessionState)
    (h0 : st0.task_history = [])
    (hall : ∀ a ∈ acts, appendsB a = true) :
    (runActions g rng st0 acts).task_history = acts.map entryOf ∧
    (runActions g rng st0 acts).task_history.length = acts.length ∧
    recentActivity (runActions g rng st0 acts) = pyLastN 5 (acts.map entryOf) ∧
    (∀ (g' : Gemini) (rng' : RandGen) (st : SessionState) (a : Action),
      ∃ t, (applyAction g' rng' st a).task_history = st.task_history ++ t) ∧
    (∀ (g' : Gemini) (st : SessionState) (u now : String),
      (getHelpHandler g' st u now).state.task_history = st.task_history) ∧
    (∀ (g' : Gemini) (st : SessionState) (k : String),
      (configureHandler g' st k).state.task_history = st.task_history) ∧
    (∀ (st : SessionState) (ut sch src : String),
      (scheduleUpdateHandler st ut sch src).state.task_history = st.task_history) := by
  have hmain : (runActions g rng st0 acts).task_history = acts.map entryOf := by
    rw [runActions_task_history g rng acts st0 hall, h0]
    rfl
  refine ⟨hmain, ?_, ?_, ?_, ?_, ?_, ?_⟩
  · rw [hmain, List.length_map]
  · rw [recentActivity, hmain]
  · intro g' rng' st a
    cases a with
    | genReport rt now => exact ⟨_, rfl⟩
    | createPres topic style n now =>
      by_cases ht : topic = ""
      · exact ⟨[], by simp [applyAction, createPresentationHandler, ht]⟩
      · exact ⟨[entryOf (.createPres topic style n now)],
          applyAction_task_history g' rng' st _ (by simp [appendsB, ht])⟩
    | runWf name now => exact ⟨_, rfl⟩
    | sheetUpdate ut now => exact ⟨_, rfl⟩
  · intro g' st u now
    unfold getHelpHandler
    split <;> rfl
  · intro g' st k
    unfold configureHandler
    split
    · exact configure_gemini_preserves_history g' st
    · rfl
  · intro st ut sch src
    rfl

/-- Witness for C8: two presses from a fresh session. -/
theorem c8_history_append_only_witness :
    initialState.task_history = [] ∧
    (∀ a ∈ ([Action.genReport "Sales Report" "09:00",
              Action.sheetUpdate "Append New Data" "09:05"] : List Action),
      appendsB a = true) ∧
    (runActions ⟨.ok (), fun _ _ => .ok "x"⟩ constRand initialState
        [Action.genReport "Sales Report" "09:00",
         Action.sheetUpdate "Append New Data" "09:05"]).task_history =
      [⟨"Generated Sales Report", "09:00"⟩,
       ⟨"Sheet update: Append New Data", "09:05"⟩] :=
  ⟨rfl, by decide,
    (c8_history_append_only ⟨.ok (), fun _ _ => .ok "x"⟩ constRand
      [Action.genReport "Sales Report" "09:00",
       Action.sheetUpdate "Append New Data" "09:05"]
      initialState rfl (by decide)).1.trans rfl⟩

/-- C10: for each of the four tab-4 workflow entries, formatting the radio
label and re-parsing it with `split(" ", 1)[1].rsplit(" (", 1)[0]`
recovers the workflow's name exactly, so Run Workflow always calls
`execute_workflow` with a recognized name and gets a five-step,
non-empty list. -/
theorem c10_label_roundtrip :
    ∀ w ∈ workflowsTable,
      parseWorkflowName (radioLabel w) = w.name ∧
      (execute_workflow (parseWorkflowName (radioLabel w)) []).length = 5 ∧
      execute_workflow (parseWorkflowName (radioLabel w)) [] ≠ [] := by
  decide

/-- Witness for C10 at the first workflow entry. -/
theorem c10_label_roundtrip_witness :
    parseWorkflowName (radioLabel ⟨"Employee Onboarding", "👤", "HR"⟩) =
      "Employee Onboarding" :=
  (c10_label_roundtrip ⟨"Employee Onboarding", "👤", "HR"⟩ (by decide)).1

end TaskAgent
